import Mathlib

/-!
Verification of the INDI-HUNTER world-simulation core.

Shallow embedding of `src/components/World/LevelManager.tsx` (the per-frame
entity simulation, collision resolution, spawning logic and the reset
effect) together with the constants of `src/unnamed/part_002` (types.ts).

Modelling conventions:
* JS numbers are modelled as `ℚ` (the simulation core uses only +, *, min,
  floor/ceil and comparisons, all exact on the rationals involved).
* `Math.random()` draws are modelled as an explicit stream (`Rng`) of
  rationals in `[0,1)`; an exhausted stream yields `0`.
* `availableLanes.sort(() => Math.random() - 0.5)` performs a JS sort with a
  random comparator whose result is an implementation-defined reordering; it
  is modelled by an arbitrary `shuffle : List ℤ → List ℤ` parameter (the
  random draws made by the comparator are absorbed into that parameter).
* `uuidv4()` identifiers are modelled by a fresh-id counter `nextId : ℕ`
  threaded through the step.
* Store mutations and DOM events (`takeDamage`, `collectGem`,
  `collectLetter`, `openShop`, `window.dispatchEvent('player-hit')`,
  particle bursts, audio calls) are recorded as an ordered `GameEvent` list.
* In the source, `objectsRef.current` is replaced by `keptObjects` only when
  `hasChanges` is set; since objects are mutated in place and every
  membership change sets `hasChanges`, always replacing the collection by
  the kept/spawned list is extensionally identical, and the model does so.
-/

namespace IndiHunter

/-- `GameStatus` from types.ts. -/
inductive GameStatus where
  | MENU
  | PLAYING
  | SHOP
  | GAME_OVER
  | VICTORY
deriving DecidableEq, Repr

/-- `ObjectType` from types.ts (ALIEN = idle boar, MISSILE = charging boar). -/
inductive ObjectType where
  | OBSTACLE
  | GEM
  | LETTER
  | SHOP_PORTAL
  | ALIEN
  | MISSILE
  | MONSTER
deriving DecidableEq, Repr

/-- A world coordinate `[x, y, z]` triple. -/
structure Vec3 where
  x : ℚ
  y : ℚ
  z : ℚ
deriving DecidableEq, Repr

/-- `GameObject` from types.ts; optional fields are `Option`s, `id` is the
fresh-counter value that stands in for the uuid string. -/
structure GameObject where
  id : ℕ
  type : ObjectType
  position : Vec3
  active : Bool
  value : Option String := none
  color : Option String := none
  targetIndex : Option ℕ := none
  points : Option ℚ := none
  hasFired : Option Bool := none
deriving DecidableEq, Repr

-- Constants from types.ts and LevelManager.tsx.
def LANE_WIDTH : ℚ := 11/5
def SPAWN_DISTANCE : ℚ := 120
def REMOVE_DISTANCE : ℚ := 20
def SCORE_PENALTY_BOAR : ℚ := 100
def SCORE_PENALTY_MONSTER : ℚ := 100
def SCORE_PENALTY_OBSTACLE : ℚ := 10
def BASE_LETTER_INTERVAL : ℚ := 150
def MISSILE_SPEED : ℚ := 28

/-- `HUNTER_COLORS` from types.ts. -/
def HUNTER_COLORS : List String :=
  ["#5d4037", "#388e3c", "#fbc02d", "#e64a19", "#5d4037", "#388e3c"]

/-- The local `target = ['H','U','N','T','E','R']` of the letter spawner. -/
def targetLetters : List String := ["H", "U", "N", "T", "E", "R"]

/-- `getLetterInterval`: `BASE_LETTER_INTERVAL * 1.5 ^ max(0, level - 1)`;
`ℕ` truncated subtraction realizes the `max(0, ·)`. -/
def getLetterInterval (level : ℕ) : ℚ :=
  BASE_LETTER_INTERVAL * (3/2) ^ (level - 1)

/-- Stream of `Math.random()` outcomes (rationals in `[0,1)`); an exhausted
stream yields `0`. -/
structure Rng where
  vals : List ℚ
deriving DecidableEq, Repr

/-- Draw the next random value. -/
def Rng.next : Rng → ℚ × Rng
  | ⟨[]⟩ => (0, ⟨[]⟩)
  | ⟨v :: vs⟩ => (v, ⟨vs⟩)

/-- `getRandomLane`: `Math.floor(Math.random() * (max*2+1)) - max` with
`max = Math.floor(laneCount/2)`; `r` is the random draw. -/
def getRandomLane (laneCount : ℕ) (r : ℚ) : ℤ :=
  ⌊r * (2 * (laneCount / 2 : ℕ) + 1)⌋ - (laneCount / 2 : ℕ)

/-- Store mutations, DOM events and audio calls emitted during a step,
in dispatch order. -/
inductive GameEvent where
  | playerHit
  | takeDamage (penalty : ℚ)
  | collectGem (points : ℚ)
  | collectLetter (targetIndex : ℕ)
  | openShop
  | particleBurst (position : Vec3) (color : String) (count : ℕ)
  | playGemCollect
  | playLetterCollect
deriving DecidableEq, Repr

/-- Simulation state owned by `LevelManager` (refs `objectsRef`,
`distanceTraveled`, `nextLetterDistance`, plus the fresh-id counter). -/
structure SimState where
  objects : List GameObject
  distanceTraveled : ℚ
  nextLetterDistance : ℚ
  nextId : ℕ
deriving DecidableEq, Repr

/-- Per-frame move amount: base scroll `speed * safeDelta`, plus
`MISSILE_SPEED * safeDelta` for charging boars. -/
def moveAmountFor (speed safeDelta : ℚ) (t : ObjectType) : ℚ :=
  if t = ObjectType.MISSILE then speed * safeDelta + MISSILE_SPEED * safeDelta
  else speed * safeDelta

/-- The inline damage-source test of the collision resolver. -/
def isDamageSource (t : ObjectType) : Prop :=
  t = ObjectType.OBSTACLE ∨ t = ObjectType.ALIEN ∨
    t = ObjectType.MISSILE ∨ t = ObjectType.MONSTER

instance (t : ObjectType) : Decidable (isDamageSource t) := by
  unfold isDamageSource
  infer_instance

/-- Vertical band `(objBottom, objTop)` occupied by an entity: the default
`y ± 0.5` band, overridden to `[0, 1.0]` for obstacles and `[0, 1.6]` for
charging boars and monsters. -/
def vertBand (obj : GameObject) : ℚ × ℚ :=
  if obj.type = ObjectType.OBSTACLE then (0, 1)
  else if obj.type = ObjectType.MISSILE ∨ obj.type = ObjectType.MONSTER then (0, 8/5)
  else (obj.position.y - 1/2, obj.position.y + 1/2)

/-- `obj.points || 50` (JS falsy: `undefined` and `0` both yield 50). -/
def pointsOrFifty (obj : GameObject) : ℚ :=
  match obj.points with
  | some p => if p = 0 then 50 else p
  | none => 50

/-- Penalty selection: default `SCORE_PENALTY_OBSTACLE`, overridden for
charging boars and monsters. -/
def penaltyFor (t : ObjectType) : ℚ :=
  if t = ObjectType.MISSILE then SCORE_PENALTY_BOAR
  else if t = ObjectType.MONSTER then SCORE_PENALTY_MONSTER
  else SCORE_PENALTY_OBSTACLE

/-- Events of the collectible branch: gem / letter collection (the letter
branch requires a defined `targetIndex`), then the particle burst with the
item's color (`obj.color || '#ffffff'`) and count 60. -/
def collectibleEvents (obj : GameObject) : List GameEvent :=
  (if obj.type = ObjectType.GEM then
      [GameEvent.collectGem (pointsOrFifty obj), GameEvent.playGemCollect]
    else []) ++
  (if obj.type = ObjectType.LETTER ∧ obj.targetIndex.isSome then
      [GameEvent.collectLetter (obj.targetIndex.getD 0), GameEvent.playLetterCollect]
    else []) ++
  [GameEvent.particleBurst obj.position (obj.color.getD "#ffffff") 60]

/-- Collision resolution for one already-moved object (`prevZ` is its z
before the move).  Returns the possibly-deactivated object, the keep flag as
set by the collision branch (only the shop portal clears it here), and the
emitted events, in dispatch order. -/
def collide (playerPos : Vec3) (prevZ : ℚ) (obj : GameObject) :
    GameObject × Bool × List GameEvent :=
  if obj.active then
    if obj.type = ObjectType.SHOP_PORTAL then
      if |obj.position.z - playerPos.z| < 2 then
        ({ obj with active := false }, false, [GameEvent.openShop])
      else (obj, true, [])
    else if prevZ < playerPos.z + 2 ∧ obj.position.z > playerPos.z - 2 then
      if |obj.position.x - playerPos.x| < 9/10 then
        if isDamageSource obj.type then
          if playerPos.y < (vertBand obj).2 ∧ playerPos.y + 9/5 > (vertBand obj).1 then
            ({ obj with active := false }, true,
              [GameEvent.playerHit, GameEvent.takeDamage (penaltyFor obj.type)] ++
              (if obj.type = ObjectType.MISSILE ∨ obj.type = ObjectType.MONSTER then
                  [GameEvent.particleBurst obj.position "#ff0000" 50]
                else []))
          else (obj, true, [])
        else
          if |obj.position.y - playerPos.y| < 5/2 then
            ({ obj with active := false }, true, collectibleEvents obj)
          else (obj, true, [])
      else (obj, true, [])
    else (obj, true, [])
  else (obj, true, [])

/-- Result of processing one object in the move/collide loop. -/
structure ProcResult where
  obj : GameObject
  keep : Bool
  spawns : List GameObject
  events : List GameEvent
  nextId : ℕ
deriving DecidableEq, Repr

/-- Advance an object's z by its per-frame move amount (`obj.position[2] +=
moveAmount`). -/
def moveObject (speed safeDelta : ℚ) (obj : GameObject) : GameObject :=
  { obj with position :=
      ⟨obj.position.x, obj.position.y,
        obj.position.z + moveAmountFor speed safeDelta obj.type⟩ }

/-- The boar aggro check, applied to the already-moved object: an active,
unfired idle boar past z = -90 marks itself fired and spawns a fresh
charging boar two units behind it.  Returns the (possibly marked) object,
the spawn list and the updated fresh-id counter. -/
def aggroCheck (nextId : ℕ) (obj : GameObject) : GameObject × List GameObject × ℕ :=
  if obj.type = ObjectType.ALIEN ∧ obj.active = true ∧
      obj.hasFired.getD false = false ∧ obj.position.z > -90 then
    ({ obj with hasFired := some true },
      [{ id := nextId, type := ObjectType.MISSILE,
         position := ⟨obj.position.x, 3/5, obj.position.z + 2⟩,
         active := true, color := some "#5d4037" }],
      nextId + 1)
  else (obj, [], nextId)

/-- One iteration of the move & update loop: advance z, run the boar aggro
check, resolve collision against the pre-move z, and apply the
`z > REMOVE_DISTANCE` removal test. -/
def processObject (speed safeDelta : ℚ) (playerPos : Vec3) (nextId : ℕ)
    (obj : GameObject) : ProcResult :=
  { obj := (collide playerPos obj.position.z
      (aggroCheck nextId (moveObject speed safeDelta obj)).1).1,
    keep := (collide playerPos obj.position.z
        (aggroCheck nextId (moveObject speed safeDelta obj)).1).2.1 &&
      decide ((collide playerPos obj.position.z
        (aggroCheck nextId (moveObject speed safeDelta obj)).1).1.position.z ≤ REMOVE_DISTANCE),
    spawns := (aggroCheck nextId (moveObject speed safeDelta obj)).2.1,
    events := (collide playerPos obj.position.z
      (aggroCheck nextId (moveObject speed safeDelta obj)).1).2.2,
    nextId := (aggroCheck nextId (moveObject speed safeDelta obj)).2.2 }

/-- Result of the whole move & update loop. -/
structure MoveResult where
  kept : List GameObject
  spawns : List GameObject
  events : List GameEvent
  nextId : ℕ
deriving DecidableEq, Repr

/-- The move & update loop over the live collection, preserving order:
kept objects in order, aggro-spawned boars accumulated separately
(`newSpawns` in the source), events concatenated in dispatch order. -/
def movePhase (speed safeDelta : ℚ) (playerPos : Vec3) :
    ℕ → List GameObject → MoveResult
  | nid, [] => ⟨[], [], [], nid⟩
  | nid, o :: rest =>
    ⟨(if (processObject speed safeDelta playerPos nid o).keep
        then [(processObject speed safeDelta playerPos nid o).obj] else []) ++
      (movePhase speed safeDelta playerPos
        (processObject speed safeDelta playerPos nid o).nextId rest).kept,
      (processObject speed safeDelta playerPos nid o).spawns ++
        (movePhase speed safeDelta playerPos
          (processObject speed safeDelta playerPos nid o).nextId rest).spawns,
      (processObject speed safeDelta playerPos nid o).events ++
        (movePhase speed safeDelta playerPos
          (processObject speed safeDelta playerPos nid o).nextId rest).events,
      (movePhase speed safeDelta playerPos
        (processObject speed safeDelta playerPos nid o).nextId rest).nextId⟩

/-- `furthestZ`: `Math.min` of the z's of the non-missile objects, or `-20`
when there are none. -/
def furthestZOf (objs : List GameObject) : ℚ :=
  match objs.map (fun o => o.position.z) with
  | [] => -20
  | z :: zs => zs.foldl min z

/-- Point-tier color: bronze by default, silver for 50, gold for 100. -/
def gemColorFor (points : ℚ) : String :=
  if points = 50 then "#c0c0c0" else if points = 100 then "#ffd700" else "#cd7f32"

/-- `[10, 50, 100][Math.floor(r * 3)]` (the default is unreachable for
`r ∈ [0,1)`). -/
def pickPoints (r : ℚ) : ℚ :=
  [(10 : ℚ), 50, 100].getD (Int.toNat ⌊r * 3⌋) 10

/-- The lane index list `-maxLane .. maxLane` with `maxLane = ⌊laneCount/2⌋`. -/
def laneRange (laneCount : ℕ) : List ℤ :=
  (List.range (2 * (laneCount / 2) + 1)).map (fun i => (i : ℤ) - (laneCount / 2 : ℕ))

/-- The hazard-cluster loop: one enemy per chosen lane at height 0.6, fresh
ids, `hasFired: false`. -/
def mkHazards (spawnType : ObjectType) (spawnZ : ℚ) :
    ℕ → List ℤ → List GameObject × ℕ
  | nid, [] => ([], nid)
  | nid, l :: ls =>
    let rest := mkHazards spawnType spawnZ (nid + 1) ls
    ({ id := nid, type := spawnType,
       position := ⟨l * LANE_WIDTH, 3/5, spawnZ⟩, active := true,
       color := some (if spawnType = ObjectType.MONSTER then "#6a1b9a" else "#4e342e"),
       hasFired := some false } :: rest.1, rest.2)

/-- The obstacle-row loop: a rock per chosen lane at height 0.4, each with a
30% chance of a tiered gem floating at height 2.0 above it. -/
def mkObstacleRow (spawnZ : ℚ) : ℕ → Rng → List ℤ → List GameObject × ℕ × Rng
  | nid, rng, [] => ([], nid, rng)
  | nid, rng, l :: ls =>
    let obst : GameObject :=
      { id := nid, type := ObjectType.OBSTACLE,
        position := ⟨l * LANE_WIDTH, 2/5, spawnZ⟩, active := true,
        color := some "#546e7a" }
    let d1 := rng.next
    if d1.1 < 3/10 then
      let d2 := d1.2.next
      let pts := pickPoints d2.1
      let gem : GameObject :=
        { id := nid + 1, type := ObjectType.GEM,
          position := ⟨l * LANE_WIDTH, 2, spawnZ⟩, active := true,
          color := some (gemColorFor pts), points := some pts }
      let rest := mkObstacleRow spawnZ (nid + 2) d2.2 ls
      (obst :: gem :: rest.1, rest.2)
    else
      let rest := mkObstacleRow spawnZ (nid + 1) d1.2 ls
      (obst :: rest.1, rest.2)

/-- The non-letter spawn branch (hazard cluster / obstacle row / standalone
gem), taken after the `Math.random() > 0.1` gate has already passed.
Random draws occur in source order, with short-circuit `&&` replicated:
the level-2 and level-3 rolls happen only on those levels, and the
redundant `!isHazard && Math.random() < 0.2 && level >= 1` reassignment
only consumes a draw (its assignment is a no-op). -/
def hazardBranch (level laneCount : ℕ) (spawnZ : ℚ) (nextId : ℕ) (rng : Rng)
    (shuffle : List ℤ → List ℤ) : List GameObject × ℕ × Rng :=
  let threshold : ℚ := if level = 1 then 3/5 else 1/5
  let d1 := rng.next
  if d1.1 > threshold then
    let s2 :=
      if level = 2 then
        let d := d1.2.next
        if d.1 < 2/5 then (ObjectType.ALIEN, true, d.2)
        else (ObjectType.OBSTACLE, false, d.2)
      else (ObjectType.OBSTACLE, false, d1.2)
    let s3 :=
      if level = 3 then
        let d := s2.2.2.next
        if d.1 < 2/5 then (ObjectType.MONSTER, true, d.2)
        else (s2.1, s2.2.1, d.2)
      else s2
    let rng2 := if s3.2.1 = false then (s3.2.2.next).2 else s3.2.2
    if s3.2.1 then
      let lanes := shuffle (laneRange laneCount)
      let d := rng2.next
      let count := min (Int.toNat ⌈d.1 * (level : ℚ)⌉) lanes.length
      let made := mkHazards s3.1 spawnZ nextId (lanes.take count)
      (made.1, made.2, d.2)
    else
      let lanes := shuffle (laneRange laneCount)
      let d := rng2.next
      let countToSpawn : ℕ := if d.1 > 3/5 then 2 else 1
      mkObstacleRow spawnZ nextId d.2 (lanes.take (min countToSpawn lanes.length))
  else
    let d2 := d1.2.next
    let lane := getRandomLane laneCount d2.1
    let d3 := d2.2.next
    let pts := pickPoints d3.1
    ([{ id := nextId, type := ObjectType.GEM,
        position := ⟨lane * LANE_WIDTH, 6/5, spawnZ⟩, active := true,
        color := some (gemColorFor pts), points := some pts }],
      nextId + 1, d3.2)

/-- Result of the spawning logic. -/
structure SpawnResult where
  spawned : List GameObject
  nextLetterDistance : ℚ
  nextId : ℕ
  rng : Rng
deriving Repr

/-- `spawnZ`: `Math.min(furthestZ - minGap, -SPAWN_DISTANCE)` with
`minGap = 12 + speed * 0.4`. -/
def spawnZFor (speed furthestZ : ℚ) : ℚ :=
  min (furthestZ - (12 + speed * (2/5))) (-SPAWN_DISTANCE)

/-- `availableIndices`: the letter slots 0..5 not yet collected. -/
def availableIndicesFor (collectedLetters : List ℕ) : List ℕ :=
  (List.range 6).filter (fun i => ¬ collectedLetters.contains i)

/-- `availableIndices[Math.floor(r * availableIndices.length)]` (the default
is unreachable for `r ∈ [0,1)` and a nonempty list). -/
def chosenIndexFor (collectedLetters : List ℕ) (r : ℚ) : ℕ :=
  (availableIndicesFor collectedLetters).getD
    (Int.toNat ⌊r * (availableIndicesFor collectedLetters).length⌋) 0

/-- The letter-due branch: spawn the letter for a random uncollected slot
and advance the pacing threshold, or — when all six letters are collected —
spawn the fallback 100-point gold gem and leave the threshold unchanged.
The first random draw picks the lane, the second (letter case) the slot. -/
def letterOrFallback (level laneCount : ℕ) (collectedLetters : List ℕ)
    (spawnZ nextLetterDistance : ℚ) (nextId : ℕ) (rng : Rng) : SpawnResult :=
  if availableIndicesFor collectedLetters = [] then
    ⟨[{ id := nextId, type := ObjectType.GEM,
        position := ⟨getRandomLane laneCount (rng.next).1 * LANE_WIDTH, 6/5, spawnZ⟩,
        active := true, color := some "#ffd700", points := some 100 }],
      nextLetterDistance, nextId + 1, (rng.next).2⟩
  else
    ⟨[{ id := nextId, type := ObjectType.LETTER,
        position := ⟨getRandomLane laneCount (rng.next).1 * LANE_WIDTH, 1, spawnZ⟩,
        active := true,
        color := some (HUNTER_COLORS.getD
          (chosenIndexFor collectedLetters (((rng.next).2.next).1)) "#ffffff"),
        value := some (targetLetters.getD
          (chosenIndexFor collectedLetters (((rng.next).2.next).1)) ""),
        targetIndex := some (chosenIndexFor collectedLetters (((rng.next).2.next).1)) }],
      nextLetterDistance + getLetterInterval level, nextId + 1, ((rng.next).2.next).2⟩

/-- The branch taken when no letter is due: a 90% gate
(`Math.random() > 0.1`), then the hazard/obstacle/gem mix. -/
def noLetterSpawn (level laneCount : ℕ) (spawnZ : ℚ) (nextId : ℕ) (rng : Rng)
    (shuffle : List ℤ → List ℤ) : List GameObject × ℕ × Rng :=
  if (rng.next).1 > 1/10 then
    hazardBranch level laneCount spawnZ nextId (rng.next).2 shuffle
  else ([], nextId, (rng.next).2)

/-- The spawning logic (part 2 of the frame): gate on the spawn horizon,
then letter / fallback gem when a letter is due, else the 90%-gated
hazard/obstacle/gem mix.  `distanceTraveled` is the value already updated
for this frame. -/
def spawnPhase (speed : ℚ) (level laneCount : ℕ) (collectedLetters : List ℕ)
    (distanceTraveled nextLetterDistance : ℚ) (nextId : ℕ) (rng : Rng)
    (shuffle : List ℤ → List ℤ) (objs : List GameObject) : SpawnResult :=
  if furthestZOf (objs.filter (fun o => o.type ≠ ObjectType.MISSILE)) > -SPAWN_DISTANCE then
    if distanceTraveled ≥ nextLetterDistance then
      letterOrFallback level laneCount collectedLetters
        (spawnZFor speed (furthestZOf (objs.filter (fun o => o.type ≠ ObjectType.MISSILE))))
        nextLetterDistance nextId rng
    else
      ⟨(noLetterSpawn level laneCount
          (spawnZFor speed (furthestZOf (objs.filter (fun o => o.type ≠ ObjectType.MISSILE))))
          nextId rng shuffle).1,
        nextLetterDistance,
        (noLetterSpawn level laneCount
          (spawnZFor speed (furthestZOf (objs.filter (fun o => o.type ≠ ObjectType.MISSILE))))
          nextId rng shuffle).2.1,
        (noLetterSpawn level laneCount
          (spawnZFor speed (furthestZOf (objs.filter (fun o => o.type ≠ ObjectType.MISSILE))))
          nextId rng shuffle).2.2⟩
  else ⟨[], nextLetterDistance, nextId, rng⟩

/-- Result of one frame: the new simulation state and the emitted events. -/
structure StepResult where
  state : SimState
  events : List GameEvent
deriving Repr

/-- One frame of the `useFrame` simulation callback: no-op unless Playing;
otherwise clamp delta to 0.05, accumulate distance, run the move & update
loop, append the aggro spawns, and run the spawning logic. -/
def stepFrame (status : GameStatus) (speed : ℚ) (level laneCount : ℕ)
    (collectedLetters : List ℕ) (playerPos : Vec3) (delta : ℚ) (rng : Rng)
    (shuffle : List ℤ → List ℤ) (s : SimState) : StepResult :=
  if status ≠ GameStatus.PLAYING then ⟨s, []⟩
  else
    let safeDelta := min delta (1/20)
    let newDistance := s.distanceTraveled + speed * safeDelta
    let mr := movePhase speed safeDelta playerPos s.nextId s.objects
    let objs1 := mr.kept ++ mr.spawns
    let sr := spawnPhase speed level laneCount collectedLetters newDistance
      s.nextLetterDistance mr.nextId rng shuffle objs1
    ⟨⟨objs1 ++ sr.spawned, newDistance, sr.nextLetterDistance, sr.nextId⟩, mr.events⟩

/-- The reset/transition effect (the `useEffect` on `[status, level]`):
full reset entering Menu or restarting after GameOver/Victory; level-up
prunes distant entities, injects a shop portal at z = -100 and recomputes
the letter threshold; the GameOver/Victory branch only records the final
distance in the store and leaves the simulation state unchanged. -/
def resetEffect (status prevStatus : GameStatus) (level prevLevel : ℕ)
    (s : SimState) : SimState :=
  let isRestart := status = GameStatus.PLAYING ∧ prevStatus = GameStatus.GAME_OVER
  let isMenuReset := status = GameStatus.MENU
  let isLevelUp := level ≠ prevLevel ∧ status = GameStatus.PLAYING
  let isVictoryReset := status = GameStatus.PLAYING ∧ prevStatus = GameStatus.VICTORY
  if isMenuReset ∨ isRestart ∨ isVictoryReset then
    { s with objects := [], distanceTraveled := 0,
             nextLetterDistance := getLetterInterval 1 }
  else if isLevelUp ∧ level > 1 then
    { s with
      objects := (s.objects.filter (fun o => o.position.z > -80)) ++
        [{ id := s.nextId, type := ObjectType.SHOP_PORTAL,
           position := ⟨0, 0, -100⟩, active := true }],
      nextLetterDistance := s.distanceTraveled - SPAWN_DISTANCE + getLetterInterval level,
      nextId := s.nextId + 1 }
  else s

/-! ### Helper lemmas -/

/-- Collision resolution never touches the `hasFired` flag. -/
theorem collide_hasFired (pp : Vec3) (prevZ : ℚ) (o : GameObject) :
    ((collide pp prevZ o).1).hasFired = o.hasFired := by
  unfold collide
  split_ifs <;> rfl

/-- Collision resolution never moves an object. -/
theorem collide_position (pp : Vec3) (prevZ : ℚ) (o : GameObject) :
    ((collide pp prevZ o).1).position = o.position := by
  unfold collide
  split_ifs <;> rfl

/-- Collision resolution never changes an object's type. -/
theorem collide_type (pp : Vec3) (prevZ : ℚ) (o : GameObject) :
    ((collide pp prevZ o).1).type = o.type := by
  unfold collide
  split_ifs <;> rfl

/-- An inactive object is ignored by the collision resolver. -/
theorem collide_inactive (pp : Vec3) (prevZ : ℚ) (o : GameObject)
    (h : o.active = false) : collide pp prevZ o = (o, true, []) := by
  unfold collide
  rw [if_neg]
  simp [h]

/-- Moving only changes the z coordinate. -/
theorem moveObject_position (speed safeDelta : ℚ) (o : GameObject) :
    (moveObject speed safeDelta o).position =
      ⟨o.position.x, o.position.y, o.position.z + moveAmountFor speed safeDelta o.type⟩ := rfl

/-- Moving preserves the active flag. -/
theorem moveObject_active (speed safeDelta : ℚ) (o : GameObject) :
    (moveObject speed safeDelta o).active = o.active := rfl

/-- Moving preserves the type. -/
theorem moveObject_type (speed safeDelta : ℚ) (o : GameObject) :
    (moveObject speed safeDelta o).type = o.type := rfl

/-- Moving preserves the `hasFired` flag. -/
theorem moveObject_hasFired (speed safeDelta : ℚ) (o : GameObject) :
    (moveObject speed safeDelta o).hasFired = o.hasFired := rfl

/-- The aggro check on a non-boar or inactive or already-fired or still-far
object does nothing. -/
theorem aggroCheck_skip (nid : ℕ) (o : GameObject)
    (h : ¬ (o.type = ObjectType.ALIEN ∧ o.active = true ∧
      o.hasFired.getD false = false ∧ o.position.z > -90)) :
    aggroCheck nid o = (o, [], nid) := by
  unfold aggroCheck
  rw [if_neg h]

/-- An inactive object just moves: no events, no aggro spawn, no state change
but the z advance, and it is kept exactly while its new z does not exceed
`REMOVE_DISTANCE`. -/
theorem processObject_inactive (speed safeDelta : ℚ) (pp : Vec3) (nid : ℕ)
    (obj : GameObject) (h : obj.active = false) :
    (processObject speed safeDelta pp nid obj).events = [] ∧
    (processObject speed safeDelta pp nid obj).obj.active = false ∧
    (processObject speed safeDelta pp nid obj).spawns = [] ∧
    (processObject speed safeDelta pp nid obj).nextId = nid ∧
    ((processObject speed safeDelta pp nid obj).keep = true ↔
      obj.position.z + moveAmountFor speed safeDelta obj.type ≤ REMOVE_DISTANCE) := by
  have hm : (moveObject speed safeDelta obj).active = false := h
  have ha := aggroCheck_skip nid (moveObject speed safeDelta obj) (by simp [hm])
  have hc := collide_inactive pp obj.position.z (moveObject speed safeDelta obj) hm
  unfold processObject
  rw [ha]
  simp [hc, hm, moveObject_position]

/-- The move loop over all-inactive objects emits nothing and keeps every
surviving object inactive. -/
theorem movePhase_inactive (speed safeDelta : ℚ) (pp : Vec3) :
    ∀ (nid : ℕ) (objs : List GameObject), (∀ o ∈ objs, o.active = false) →
      (movePhase speed safeDelta pp nid objs).events = [] ∧
      (movePhase speed safeDelta pp nid objs).spawns = [] ∧
      ∀ o ∈ (movePhase speed safeDelta pp nid objs).kept, o.active = false
  | _, [], _ => by simp [movePhase]
  | nid, o :: rest, h => by
    have ho := processObject_inactive speed safeDelta pp nid o (h o (by simp))
    have ih := movePhase_inactive speed safeDelta pp
      (processObject speed safeDelta pp nid o).nextId rest
      (fun x hx => h x (by simp [hx]))
    refine ⟨?_, ?_, ?_⟩
    · simp [movePhase, ho.1, ih.1]
    · simp [movePhase, ho.2.2.1, ih.2.1]
    · intro x hx
      simp only [movePhase, List.mem_append] at hx
      rcases hx with hx | hx
      · by_cases hk : (processObject speed safeDelta pp nid o).keep = true
        · rw [if_pos hk] at hx
          rw [List.mem_singleton] at hx
          subst hx
          exact ho.2.1
        · rw [if_neg hk] at hx
          exact absurd hx (List.not_mem_nil x)
      · exact ih.2.2 x hx

/-- A Playing frame in components (definitional unfolding of `stepFrame`). -/
theorem stepFrame_playing (speed : ℚ) (level laneCount : ℕ) (cl : List ℕ)
    (pp : Vec3) (delta : ℚ) (rng : Rng) (sh : List ℤ → List ℤ) (s : SimState) :
    stepFrame GameStatus.PLAYING speed level laneCount cl pp delta rng sh s =
      ⟨⟨((movePhase speed (min delta (1/20)) pp s.nextId s.objects).kept ++
          (movePhase speed (min delta (1/20)) pp s.nextId s.objects).spawns) ++
          (spawnPhase speed level laneCount cl (s.distanceTraveled + speed * min delta (1/20))
            s.nextLetterDistance (movePhase speed (min delta (1/20)) pp s.nextId s.objects).nextId
            rng sh
            ((movePhase speed (min delta (1/20)) pp s.nextId s.objects).kept ++
              (movePhase speed (min delta (1/20)) pp s.nextId s.objects).spawns)).spawned,
        s.distanceTraveled + speed * min delta (1/20),
        (spawnPhase speed level laneCount cl (s.distanceTraveled + speed * min delta (1/20))
          s.nextLetterDistance (movePhase speed (min delta (1/20)) pp s.nextId s.objects).nextId
          rng sh
          ((movePhase speed (min delta (1/20)) pp s.nextId s.objects).kept ++
            (movePhase speed (min delta (1/20)) pp s.nextId s.objects).spawns)).nextLetterDistance,
        (spawnPhase speed level laneCount cl (s.distanceTraveled + speed * min delta (1/20))
          s.nextLetterDistance (movePhase speed (min delta (1/20)) pp s.nextId s.objects).nextId
          rng sh
          ((movePhase speed (min delta (1/20)) pp s.nextId s.objects).kept ++
            (movePhase speed (min delta (1/20)) pp s.nextId s.objects).spawns)).nextId⟩,
        (movePhase speed (min delta (1/20)) pp s.nextId s.objects).events⟩ := rfl

/-! ### Claim theorems -/

/-- C6: the letter-pacing interval satisfies
`interval(level+1) = interval(level) * 1.5` exactly for every `level ≥ 1`
(with `interval(1) = 150`, the base interval), and is therefore
non-decreasing across levels. -/
theorem C6_letter_interval_growth (level : ℕ) (h : 1 ≤ level) :
    getLetterInterval 1 = BASE_LETTER_INTERVAL ∧
    getLetterInterval (level + 1) = getLetterInterval level * (3/2) ∧
    getLetterInterval level ≤ getLetterInterval (level + 1) := by
  obtain ⟨k, rfl⟩ : ∃ k, level = k + 1 := ⟨level - 1, (Nat.succ_pred_eq_of_pos h).symm⟩
  unfold getLetterInterval BASE_LETTER_INTERVAL
  refine ⟨by norm_num, ?_, ?_⟩
  · simp only [Nat.add_sub_cancel]
    rw [pow_succ]
    ring
  · have hp : (0:ℚ) < (3/2) ^ k := pow_pos (by norm_num) k
    simp only [Nat.add_sub_cancel]
    rw [pow_succ]
    nlinarith

/-- C6 witness: the interval relation instantiated at level 1. -/
theorem C6_letter_interval_growth_witness :
    1 ≤ 1 ∧ (getLetterInterval 1 = BASE_LETTER_INTERVAL ∧
      getLetterInterval 2 = getLetterInterval 1 * (3/2) ∧
      getLetterInterval 1 ≤ getLetterInterval 2) :=
  ⟨Nat.le_refl 1, C6_letter_interval_growth 1 (Nat.le_refl 1)⟩

/-- C7: a frame in any status other than Playing (in particular Shop) leaves
the simulation state — every entity position and the traveled distance —
unchanged and emits nothing, whatever the delta; and a Playing frame taken
after a Shop frame advances from exactly the pre-Shop state. -/
theorem C7_non_playing_freezes (status : GameStatus) (h : status ≠ GameStatus.PLAYING)
    (speed speed' : ℚ) (level level' laneCount laneCount' : ℕ)
    (cl cl' : List ℕ) (pp pp' : Vec3) (delta delta' : ℚ) (rng rng' : Rng)
    (sh sh' : List ℤ → List ℤ) (s : SimState) :
    stepFrame status speed level laneCount cl pp delta rng sh s = ⟨s, []⟩ ∧
    stepFrame GameStatus.PLAYING speed' level' laneCount' cl' pp' delta' rng' sh'
        (stepFrame GameStatus.SHOP speed level laneCount cl pp delta rng sh s).state =
      stepFrame GameStatus.PLAYING speed' level' laneCount' cl' pp' delta' rng' sh' s := by
  have hshop : stepFrame GameStatus.SHOP speed level laneCount cl pp delta rng sh s
      = ⟨s, []⟩ := by
    unfold stepFrame
    rw [if_pos]
    intro hc
    exact absurd hc (by decide)
  refine ⟨?_, by rw [hshop]⟩
  unfold stepFrame
  rw [if_pos h]

/-- C7 witness: a Shop frame on a concrete one-entity state. -/
theorem C7_non_playing_freezes_witness :
    GameStatus.SHOP ≠ GameStatus.PLAYING ∧
    (stepFrame GameStatus.SHOP 10 1 3 [] ⟨0,0,0⟩ 1 ⟨[]⟩ (fun l => l)
        ⟨[{ id := 0, type := ObjectType.OBSTACLE, position := ⟨0, 2/5, -50⟩,
            active := true }], 7, 150, 1⟩ =
      ⟨⟨[{ id := 0, type := ObjectType.OBSTACLE, position := ⟨0, 2/5, -50⟩,
            active := true }], 7, 150, 1⟩, []⟩ ∧
      stepFrame GameStatus.PLAYING 10 1 3 [] ⟨0,0,0⟩ 1 ⟨[]⟩ (fun l => l)
          (stepFrame GameStatus.SHOP 10 1 3 [] ⟨0,0,0⟩ 1 ⟨[]⟩ (fun l => l)
            ⟨[{ id := 0, type := ObjectType.OBSTACLE, position := ⟨0, 2/5, -50⟩,
                active := true }], 7, 150, 1⟩).state =
        stepFrame GameStatus.PLAYING 10 1 3 [] ⟨0,0,0⟩ 1 ⟨[]⟩ (fun l => l)
          ⟨[{ id := 0, type := ObjectType.OBSTACLE, position := ⟨0, 2/5, -50⟩,
              active := true }], 7, 150, 1⟩) :=
  ⟨by decide,
    C7_non_playing_freezes GameStatus.SHOP (by decide) 10 10 1 1 3 3 [] []
      ⟨0,0,0⟩ ⟨0,0,0⟩ 1 1 ⟨[]⟩ ⟨[]⟩ (fun l => l) (fun l => l)
      ⟨[{ id := 0, type := ObjectType.OBSTACLE, position := ⟨0, 2/5, -50⟩,
          active := true }], 7, 150, 1⟩⟩

/-- C8: entering Menu fully resets the simulation (empty collection, zero
distance, level-1 pacing interval), the Menu → Playing transition (with the
level back at its initial value 1) preserves that reset state, and a restart
from GameOver or Victory resets it the same way. -/
theorem C8_full_reset (s : SimState) (prev : GameStatus)
    (lvl plvl plvl2 lvl2 plvl3 lvl3 plvl4 : ℕ) :
    ((resetEffect GameStatus.PLAYING GameStatus.MENU 1 plvl2
        (resetEffect GameStatus.MENU prev lvl plvl s)).objects = [] ∧
      (resetEffect GameStatus.PLAYING GameStatus.MENU 1 plvl2
        (resetEffect GameStatus.MENU prev lvl plvl s)).distanceTraveled = 0 ∧
      (resetEffect GameStatus.PLAYING GameStatus.MENU 1 plvl2
        (resetEffect GameStatus.MENU prev lvl plvl s)).nextLetterDistance =
        getLetterInterval 1) ∧
    ((resetEffect GameStatus.PLAYING GameStatus.GAME_OVER lvl2 plvl3 s).objects = [] ∧
      (resetEffect GameStatus.PLAYING GameStatus.GAME_OVER lvl2 plvl3 s).distanceTraveled = 0 ∧
      (resetEffect GameStatus.PLAYING GameStatus.GAME_OVER lvl2 plvl3 s).nextLetterDistance =
        getLetterInterval 1) ∧
    ((resetEffect GameStatus.PLAYING GameStatus.VICTORY lvl3 plvl4 s).objects = [] ∧
      (resetEffect GameStatus.PLAYING GameStatus.VICTORY lvl3 plvl4 s).distanceTraveled = 0 ∧
      (resetEffect GameStatus.PLAYING GameStatus.VICTORY lvl3 plvl4 s).nextLetterDistance =
        getLetterInterval 1) := by
  unfold resetEffect
  simp

/-- C2 counterexample: an obstacle at z = -0.05 is hit on the first Playing
frame (it is deactivated — consumed — on that frame), yet after the next
simulation pass it is still in the live collection, because pruning depends
only on z exceeding `REMOVE_DISTANCE`, not on a one-frame grace. -/
theorem C2_counterexample :
    ((stepFrame GameStatus.PLAYING 10 1 3 [] ⟨0,0,0⟩ (1/20) ⟨[]⟩ (fun l => l)
        ⟨[{ id := 0, type := ObjectType.OBSTACLE, position := ⟨0, 2/5, -1/20⟩,
            active := true }], 0, 150, 1⟩).state.objects.map
      (fun o => (o.id, o.active)) = [(0, false)]) ∧
    ((stepFrame GameStatus.PLAYING 10 1 3 [] ⟨0,0,0⟩ (1/20) ⟨[]⟩ (fun l => l)
        (stepFrame GameStatus.PLAYING 10 1 3 [] ⟨0,0,0⟩ (1/20) ⟨[]⟩ (fun l => l)
          ⟨[{ id := 0, type := ObjectType.OBSTACLE, position := ⟨0, 2/5, -1/20⟩,
              active := true }], 0, 150, 1⟩).state).state.objects.map
      (fun o => (o.id, o.active)) = [(0, false)]) := by
  constructor <;>
  · norm_num +decide [stepFrame_playing, movePhase, processObject, moveObject, aggroCheck,
      collide, spawnPhase, letterOrFallback, noLetterSpawn, availableIndicesFor,
      spawnZFor, furthestZOf, moveAmountFor, vertBand, penaltyFor, isDamageSource,
      collectibleEvents, Rng.next, LANE_WIDTH, SPAWN_DISTANCE, REMOVE_DISTANCE,
      SCORE_PENALTY_OBSTACLE, MISSILE_SPEED, min_def, abs_sub_lt_iff]

/-- C2 (amended): an entity whose active flag is false is never matched for
collision (it contributes no events) and persists, still advancing, until a
pass moves its z beyond `REMOVE_DISTANCE` (20): pruning of consumed entities
is z-based, not a one-frame grace. -/
theorem C2_inactive_pruned_by_z (speed safeDelta : ℚ) (pp : Vec3) (nid : ℕ)
    (obj : GameObject) (h : obj.active = false) :
    (processObject speed safeDelta pp nid obj).events = [] ∧
    ((processObject speed safeDelta pp nid obj).keep = true ↔
      obj.position.z + moveAmountFor speed safeDelta obj.type ≤ REMOVE_DISTANCE) :=
  ⟨(processObject_inactive speed safeDelta pp nid obj h).1,
    (processObject_inactive speed safeDelta pp nid obj h).2.2.2.2⟩

/-- C2 witness: a consumed obstacle at z = -10 under a 0.5-unit advance. -/
theorem C2_inactive_pruned_by_z_witness :
    (GameObject.mk 0 ObjectType.OBSTACLE ⟨0, 2/5, -10⟩ false none none none none
        none).active = false ∧
    ((processObject 10 (1/20) ⟨0,0,0⟩ 1
        (GameObject.mk 0 ObjectType.OBSTACLE ⟨0, 2/5, -10⟩ false none none none none
          none)).events = [] ∧
      ((processObject 10 (1/20) ⟨0,0,0⟩ 1
          (GameObject.mk 0 ObjectType.OBSTACLE ⟨0, 2/5, -10⟩ false none none none none
            none)).keep = true ↔
        (GameObject.mk 0 ObjectType.OBSTACLE ⟨0, 2/5, -10⟩ false none none none none
            none).position.z +
          moveAmountFor 10 (1/20)
            (GameObject.mk 0 ObjectType.OBSTACLE ⟨0, 2/5, -10⟩ false none none none none
              none).type ≤ REMOVE_DISTANCE)) :=
  ⟨rfl, C2_inactive_pruned_by_z 10 (1/20) ⟨0,0,0⟩ 1
    (GameObject.mk 0 ObjectType.OBSTACLE ⟨0, 2/5, -10⟩ false none none none none none)
    rfl⟩

/-- C4: once every entity of a state is inactive, a Playing frame triggers no
scoring, damage, letter-collection, or shop-open effect at all (the collision
branch is guarded on the active flag), and every surviving moved entity is
still inactive — so resolution stays idempotent across all later steps. -/
theorem C4_inactive_never_retriggers (speed : ℚ) (level laneCount : ℕ)
    (cl : List ℕ) (pp : Vec3) (delta : ℚ) (rng : Rng) (sh : List ℤ → List ℤ)
    (s : SimState) (h : ∀ o ∈ s.objects, o.active = false) :
    (stepFrame GameStatus.PLAYING speed level laneCount cl pp delta rng sh s).events = [] ∧
    ∀ o ∈ (movePhase speed (min delta (1/20)) pp s.nextId s.objects).kept,
      o.active = false := by
  have hm := movePhase_inactive speed (min delta (1/20)) pp s.nextId s.objects h
  rw [stepFrame_playing]
  exact ⟨hm.1, hm.2.2⟩

/-- C4 witness: a single consumed obstacle entity. -/
theorem C4_inactive_never_retriggers_witness :
    (∀ o ∈ [GameObject.mk 0 ObjectType.OBSTACLE ⟨0, 2/5, -10⟩ false none none none
        none none], o.active = false) ∧
    ((stepFrame GameStatus.PLAYING 10 1 3 [] ⟨0,0,0⟩ (1/20) ⟨[]⟩ (fun l => l)
        ⟨[GameObject.mk 0 ObjectType.OBSTACLE ⟨0, 2/5, -10⟩ false none none none
          none none], 0, 150, 1⟩).events = [] ∧
      ∀ o ∈ (movePhase 10 (min (1/20) (1/20)) ⟨0,0,0⟩
          (SimState.mk [GameObject.mk 0 ObjectType.OBSTACLE ⟨0, 2/5, -10⟩ false none
            none none none none] 0 150 1).nextId
          (SimState.mk [GameObject.mk 0 ObjectType.OBSTACLE ⟨0, 2/5, -10⟩ false none
            none none none none] 0 150 1).objects).kept,
        o.active = false) :=
  ⟨by decide,
    C4_inactive_never_retriggers 10 1 3 [] ⟨0,0,0⟩ (1/20) ⟨[]⟩ (fun l => l)
      (SimState.mk [GameObject.mk 0 ObjectType.OBSTACLE ⟨0, 2/5, -10⟩ false none none
        none none none] 0 150 1)
      (by decide)⟩

/-- C3: an active idle boar (ALIEN) that has not yet fired and whose z
exceeds the -90 trigger after this step's move is marked
`hasFired := some true` and pushes exactly one fresh charging boar (MISSILE)
carrying the next fresh id, two units behind it; and once `hasFired` is set
it is never unset and no further spawn is produced for that entity by any
later step (one-way, one-shot). -/
theorem C3_boar_aggro_one_shot (speed safeDelta : ℚ) (pp : Vec3) (nid : ℕ)
    (obj : GameObject)
    (hty : obj.type = ObjectType.ALIEN) (hact : obj.active = true)
    (hnf : obj.hasFired.getD false = false)
    (hz : obj.position.z + speed * safeDelta > -90) :
    (processObject speed safeDelta pp nid obj).obj.hasFired = some true ∧
    (processObject speed safeDelta pp nid obj).spawns =
      [{ id := nid, type := ObjectType.MISSILE,
         position := ⟨obj.position.x, 3/5, obj.position.z + speed * safeDelta + 2⟩,
         active := true, color := some "#5d4037" }] ∧
    (processObject speed safeDelta pp nid obj).nextId = nid + 1 ∧
    (∀ (speed' safeDelta' : ℚ) (pp' : Vec3) (nid' : ℕ) (o : GameObject),
      o.hasFired = some true →
      (processObject speed' safeDelta' pp' nid' o).spawns = [] ∧
      (processObject speed' safeDelta' pp' nid' o).obj.hasFired = some true) := by
  have hma : moveAmountFor speed safeDelta obj.type = speed * safeDelta := by
    unfold moveAmountFor
    rw [hty, if_neg (by decide)]
  have hcond : (moveObject speed safeDelta obj).type = ObjectType.ALIEN ∧
      (moveObject speed safeDelta obj).active = true ∧
      (moveObject speed safeDelta obj).hasFired.getD false = false ∧
      (moveObject speed safeDelta obj).position.z > -90 := by
    refine ⟨by rw [moveObject_type, hty], by rw [moveObject_active, hact],
      by rw [moveObject_hasFired]; exact hnf, ?_⟩
    show obj.position.z + moveAmountFor speed safeDelta obj.type > -90
    rw [hma]
    exact hz
  have ha : aggroCheck nid (moveObject speed safeDelta obj) =
      ({ moveObject speed safeDelta obj with hasFired := some true },
        [{ id := nid, type := ObjectType.MISSILE,
           position := ⟨(moveObject speed safeDelta obj).position.x, 3/5,
             (moveObject speed safeDelta obj).position.z + 2⟩,
           active := true, color := some "#5d4037" }], nid + 1) := by
    unfold aggroCheck
    rw [if_pos hcond]
  refine ⟨?_, ?_, ?_, ?_⟩
  · simp only [processObject, ha, collide_hasFired]
  · simp only [processObject, ha, moveObject_position, hma]
  · simp only [processObject, ha]
  · intro speed' safeDelta' pp' nid' o ho
    have ha' := aggroCheck_skip nid' (moveObject speed' safeDelta' o)
      (by simp [moveObject_hasFired, ho])
    exact ⟨by simp only [processObject, ha'],
      by simp only [processObject, ha', collide_hasFired, moveObject_hasFired, ho]⟩

/-- C3 witness: a not-yet-fired idle boar at z = -91 crossing the trigger
with a 50-unit advance. -/
theorem C3_boar_aggro_one_shot_witness :
    (GameObject.mk 7 ObjectType.ALIEN ⟨0, 3/5, -91⟩ true none (some "#4e342e")
        none none (some false)).type = ObjectType.ALIEN ∧
    (GameObject.mk 7 ObjectType.ALIEN ⟨0, 3/5, -91⟩ true none (some "#4e342e")
        none none (some false)).active = true ∧
    (GameObject.mk 7 ObjectType.ALIEN ⟨0, 3/5, -91⟩ true none (some "#4e342e")
        none none (some false)).hasFired.getD false = false ∧
    ((GameObject.mk 7 ObjectType.ALIEN ⟨0, 3/5, -91⟩ true none (some "#4e342e")
        none none (some false)).position.z + 1000 * (1/20) > -90) ∧
    ((processObject 1000 (1/20) ⟨0,0,0⟩ 9
        (GameObject.mk 7 ObjectType.ALIEN ⟨0, 3/5, -91⟩ true none (some "#4e342e")
          none none (some false))).obj.hasFired = some true ∧
      (processObject 1000 (1/20) ⟨0,0,0⟩ 9
          (GameObject.mk 7 ObjectType.ALIEN ⟨0, 3/5, -91⟩ true none (some "#4e342e")
            none none (some false))).spawns =
        [{ id := 9, type := ObjectType.MISSILE,
           position := ⟨(GameObject.mk 7 ObjectType.ALIEN ⟨0, 3/5, -91⟩ true none
              (some "#4e342e") none none (some false)).position.x, 3/5,
             (GameObject.mk 7 ObjectType.ALIEN ⟨0, 3/5, -91⟩ true none
                (some "#4e342e") none none (some false)).position.z +
               1000 * (1/20) + 2⟩,
           active := true, color := some "#5d4037" }] ∧
      (processObject 1000 (1/20) ⟨0,0,0⟩ 9
          (GameObject.mk 7 ObjectType.ALIEN ⟨0, 3/5, -91⟩ true none (some "#4e342e")
            none none (some false))).nextId = 9 + 1 ∧
      (∀ (speed' safeDelta' : ℚ) (pp' : Vec3) (nid' : ℕ) (o : GameObject),
        o.hasFired = some true →
        (processObject speed' safeDelta' pp' nid' o).spawns = [] ∧
        (processObject speed' safeDelta' pp' nid' o).obj.hasFired = some true)) :=
  ⟨rfl, rfl, rfl, by norm_num,
    C3_boar_aggro_one_shot 1000 (1/20) ⟨0,0,0⟩ 9
      (GameObject.mk 7 ObjectType.ALIEN ⟨0, 3/5, -91⟩ true none (some "#4e342e")
        none none (some false)) rfl rfl rfl (by norm_num)⟩

/-- C1: in a Playing step with the player at z = 0, an active obstacle whose
pre-move z is below the +2 window bound and whose post-move z is above the
-2 bound, with lateral distance below 0.9 and the obstacle band [0, 1]
meeting the player band [y, y+1.8]: the step emits exactly one player-hit
event followed by `takeDamage` with the obstacle penalty of exactly 10, and
the obstacle survives the frame deactivated. -/
theorem C1_obstacle_collision (speed delta : ℚ) (level laneCount : ℕ)
    (cl : List ℕ) (px py : ℚ) (rng : Rng) (sh : List ℤ → List ℤ)
    (obs : GameObject) (dT nLD : ℚ) (nid : ℕ)
    (hty : obs.type = ObjectType.OBSTACLE) (hact : obs.active = true)
    (hwin1 : obs.position.z < 0 + 2)
    (hwin2 : obs.position.z + speed * min delta (1/20) > 0 - 2)
    (hx : |obs.position.x - px| < 9/10)
    (hband : py < 1 ∧ py + 9/5 > 0)
    (hkeep : obs.position.z + speed * min delta (1/20) ≤ REMOVE_DISTANCE) :
    SCORE_PENALTY_OBSTACLE = 10 ∧
    (stepFrame GameStatus.PLAYING speed level laneCount cl ⟨px, py, 0⟩ delta rng sh
        ⟨[obs], dT, nLD, nid⟩).events =
      [GameEvent.playerHit, GameEvent.takeDamage SCORE_PENALTY_OBSTACLE] ∧
    (stepFrame GameStatus.PLAYING speed level laneCount cl ⟨px, py, 0⟩ delta rng sh
        ⟨[obs], dT, nLD, nid⟩).state.objects.head? =
      some { obs with
        position := ⟨obs.position.x, obs.position.y,
          obs.position.z + speed * min delta (1/20)⟩,
        active := false } := by
  have hma : moveAmountFor speed (min delta (1/20)) obs.type = speed * min delta (1/20) := by
    unfold moveAmountFor
    rw [hty, if_neg (by decide)]
  have hag := aggroCheck_skip nid (moveObject speed (min delta (1/20)) obs)
    (by simp [moveObject_type, hty])
  have hz2 : (moveObject speed (min delta (1/20)) obs).position.z >
      (Vec3.mk px py 0).z - 2 := by
    show obs.position.z + moveAmountFor speed (min delta (1/20)) obs.type > (0:ℚ) - 2
    rw [hma]
    exact hwin2
  have hvb : vertBand (moveObject speed (min delta (1/20)) obs) = (0, 1) := by
    unfold vertBand
    rw [moveObject_type, hty, if_pos rfl]
  have hc : collide ⟨px, py, 0⟩ obs.position.z (moveObject speed (min delta (1/20)) obs) =
      ({ moveObject speed (min delta (1/20)) obs with active := false }, true,
        [GameEvent.playerHit, GameEvent.takeDamage SCORE_PENALTY_OBSTACLE]) := by
    unfold collide
    rw [if_pos (show (moveObject speed (min delta (1/20)) obs).active = true by
      rw [moveObject_active]; exact hact)]
    rw [if_neg (show ¬ (moveObject speed (min delta (1/20)) obs).type =
        ObjectType.SHOP_PORTAL by rw [moveObject_type, hty]; decide)]
    rw [if_pos (show obs.position.z < (Vec3.mk px py 0).z + 2 ∧
        (moveObject speed (min delta (1/20)) obs).position.z > (Vec3.mk px py 0).z - 2
      from ⟨hwin1, hz2⟩)]
    rw [if_pos (show |(moveObject speed (min delta (1/20)) obs).position.x -
        (Vec3.mk px py 0).x| < 9/10 from hx)]
    rw [if_pos (show isDamageSource (moveObject speed (min delta (1/20)) obs).type by
      rw [moveObject_type, hty]; decide)]
    rw [if_pos (show (Vec3.mk px py 0).y <
          (vertBand (moveObject speed (min delta (1/20)) obs)).2 ∧
        (Vec3.mk px py 0).y + 9/5 >
          (vertBand (moveObject speed (min delta (1/20)) obs)).1 by
      rw [hvb]; exact hband)]
    simp [penaltyFor, moveObject_type, hty]
  have hkeepB : (moveObject speed (min delta (1/20)) obs).position.z ≤
      REMOVE_DISTANCE := by
    show obs.position.z + moveAmountFor speed (min delta (1/20)) obs.type ≤ REMOVE_DISTANCE
    rw [hma]
    exact hkeep
  have hpo : processObject speed (min delta (1/20)) ⟨px, py, 0⟩ nid obs =
      ⟨{ moveObject speed (min delta (1/20)) obs with active := false }, true, [],
        [GameEvent.playerHit, GameEvent.takeDamage SCORE_PENALTY_OBSTACLE], nid⟩ := by
    unfold processObject
    rw [hag]
    dsimp only
    rw [hc]
    dsimp only
    rw [decide_eq_true hkeepB]
    rfl
  have hmp : movePhase speed (min delta (1/20)) ⟨px, py, 0⟩ nid [obs] =
      ⟨[{ moveObject speed (min delta (1/20)) obs with active := false }], [],
        [GameEvent.playerHit, GameEvent.takeDamage SCORE_PENALTY_OBSTACLE], nid⟩ := by
    simp only [movePhase, hpo, List.append_nil, List.nil_append, eq_self_iff_true,
      if_true]
  refine ⟨rfl, ?_, ?_⟩
  · rw [stepFrame_playing]
    simp only [hmp]
  · rw [stepFrame_playing]
    simp only [hmp, moveObject, List.append_nil, List.cons_append, List.nil_append,
      List.head?_cons, hma]

/-- C1 witness: an obstacle at z = -0.05 directly in the player's lane with
the player grounded at the origin, advancing half a unit. -/
theorem C1_obstacle_collision_witness :
    (GameObject.mk 4 ObjectType.OBSTACLE ⟨0, 2/5, -1/20⟩ true none (some "#546e7a")
        none none none).type = ObjectType.OBSTACLE ∧
    (GameObject.mk 4 ObjectType.OBSTACLE ⟨0, 2/5, -1/20⟩ true none (some "#546e7a")
        none none none).active = true ∧
    ((GameObject.mk 4 ObjectType.OBSTACLE ⟨0, 2/5, -1/20⟩ true none (some "#546e7a")
        none none none).position.z < 0 + 2) ∧
    ((GameObject.mk 4 ObjectType.OBSTACLE ⟨0, 2/5, -1/20⟩ true none (some "#546e7a")
        none none none).position.z + 10 * min (1/20) (1/20) > 0 - 2) ∧
    (|(GameObject.mk 4 ObjectType.OBSTACLE ⟨0, 2/5, -1/20⟩ true none (some "#546e7a")
        none none none).position.x - 0| < 9/10) ∧
    ((0:ℚ) < 1 ∧ (0:ℚ) + 9/5 > 0) ∧
    ((GameObject.mk 4 ObjectType.OBSTACLE ⟨0, 2/5, -1/20⟩ true none (some "#546e7a")
        none none none).position.z + 10 * min (1/20) (1/20) ≤ REMOVE_DISTANCE) ∧
    (SCORE_PENALTY_OBSTACLE = 10 ∧
      (stepFrame GameStatus.PLAYING 10 1 3 [] ⟨0, 0, 0⟩ (1/20) ⟨[]⟩ (fun l => l)
          ⟨[GameObject.mk 4 ObjectType.OBSTACLE ⟨0, 2/5, -1/20⟩ true none
            (some "#546e7a") none none none], 0, 150, 5⟩).events =
        [GameEvent.playerHit, GameEvent.takeDamage SCORE_PENALTY_OBSTACLE] ∧
      (stepFrame GameStatus.PLAYING 10 1 3 [] ⟨0, 0, 0⟩ (1/20) ⟨[]⟩ (fun l => l)
          ⟨[GameObject.mk 4 ObjectType.OBSTACLE ⟨0, 2/5, -1/20⟩ true none
            (some "#546e7a") none none none], 0, 150, 5⟩).state.objects.head? =
        some { GameObject.mk 4 ObjectType.OBSTACLE ⟨0, 2/5, -1/20⟩ true none
            (some "#546e7a") none none none with
          position := ⟨(GameObject.mk 4 ObjectType.OBSTACLE ⟨0, 2/5, -1/20⟩ true none
              (some "#546e7a") none none none).position.x,
            (GameObject.mk 4 ObjectType.OBSTACLE ⟨0, 2/5, -1/20⟩ true none
              (some "#546e7a") none none none).position.y,
            (GameObject.mk 4 ObjectType.OBSTACLE ⟨0, 2/5, -1/20⟩ true none
              (some "#546e7a") none none none).position.z + 10 * min (1/20) (1/20)⟩,
          active := false }) :=
  ⟨rfl, rfl, by norm_num, by norm_num [min_def], by norm_num, by norm_num,
    by norm_num [min_def, REMOVE_DISTANCE],
    C1_obstacle_collision 10 (1/20) 1 3 [] 0 0 ⟨[]⟩ (fun l => l)
      (GameObject.mk 4 ObjectType.OBSTACLE ⟨0, 2/5, -1/20⟩ true none (some "#546e7a")
        none none none) 0 150 5 rfl rfl (by norm_num) (by norm_num [min_def])
      (by norm_num) (by norm_num) (by norm_num [min_def, REMOVE_DISTANCE])⟩

/-- When every letter slot 0..5 is collected, no letter index is available. -/
theorem availableIndicesFor_eq_nil (cl : List ℕ)
    (hall : ∀ i, i < 6 → cl.contains i = true) :
    availableIndicesFor cl = [] := by
  unfold availableIndicesFor
  rw [List.filter_eq_nil_iff]
  intro a ha
  rw [List.mem_range] at ha
  simpa using hall a ha

/-- The spawner with the horizon gate open, a letter due, and all letters
collected emits exactly the fallback 100-point gold gem and leaves the
pacing threshold unchanged. -/
theorem spawnPhase_fallback (speed : ℚ) (level laneCount : ℕ) (cl : List ℕ)
    (dT nLD : ℚ) (nid : ℕ) (rng : Rng) (sh : List ℤ → List ℤ)
    (objs : List GameObject)
    (hall : availableIndicesFor cl = [])
    (hgate : furthestZOf (objs.filter (fun o => o.type ≠ ObjectType.MISSILE)) >
      -SPAWN_DISTANCE)
    (hdue : dT ≥ nLD) :
    spawnPhase speed level laneCount cl dT nLD nid rng sh objs =
      ⟨[{ id := nid, type := ObjectType.GEM,
          position := ⟨getRandomLane laneCount (rng.next).1 * LANE_WIDTH, 6/5,
            spawnZFor speed
              (furthestZOf (objs.filter (fun o => o.type ≠ ObjectType.MISSILE)))⟩,
          active := true, color := some "#ffd700", points := some 100 }],
        nLD, nid + 1, (rng.next).2⟩ := by
  unfold spawnPhase
  rw [if_pos hgate, if_pos hdue]
  unfold letterOrFallback
  rw [if_pos hall]

/-- The spawner with the horizon gate closed emits nothing and changes
nothing. -/
theorem spawnPhase_gate_closed (speed : ℚ) (level laneCount : ℕ) (cl : List ℕ)
    (dT nLD : ℚ) (nid : ℕ) (rng : Rng) (sh : List ℤ → List ℤ)
    (objs : List GameObject)
    (hgate : ¬ furthestZOf (objs.filter (fun o => o.type ≠ ObjectType.MISSILE)) >
      -SPAWN_DISTANCE) :
    spawnPhase speed level laneCount cl dT nLD nid rng sh objs =
      ⟨[], nLD, nid, rng⟩ := by
  unfold spawnPhase
  rw [if_neg hgate]

/-- C5: in a Playing step where the spawn gate passes, a letter is due
(updated distance at or past the threshold) and all six letter indices are
collected, the spawner appends exactly one fallback Gem worth 100 points —
and thus no Letter entity. -/
theorem C5_fallback_gem_spawn (speed delta : ℚ) (level laneCount : ℕ)
    (cl : List ℕ) (pp : Vec3) (rng : Rng) (sh : List ℤ → List ℤ) (s : SimState)
    (hall : ∀ i, i < 6 → cl.contains i = true)
    (hgate : furthestZOf
        (((movePhase speed (min delta (1/20)) pp s.nextId s.objects).kept ++
          (movePhase speed (min delta (1/20)) pp s.nextId s.objects).spawns).filter
          (fun o => o.type ≠ ObjectType.MISSILE)) > -SPAWN_DISTANCE)
    (hdue : s.distanceTraveled + speed * min delta (1/20) ≥ s.nextLetterDistance) :
    ∃ g, (stepFrame GameStatus.PLAYING speed level laneCount cl pp delta rng sh
          s).state.objects =
        ((movePhase speed (min delta (1/20)) pp s.nextId s.objects).kept ++
          (movePhase speed (min delta (1/20)) pp s.nextId s.objects).spawns) ++ [g] ∧
      g.type = ObjectType.GEM ∧ g.points = some 100 ∧ g.active = true ∧
      g.type ≠ ObjectType.LETTER := by
  refine ⟨{ id := (movePhase speed (min delta (1/20)) pp s.nextId s.objects).nextId,
            type := ObjectType.GEM,
            position := ⟨getRandomLane laneCount (rng.next).1 * LANE_WIDTH, 6/5,
              spawnZFor speed (furthestZOf
                (((movePhase speed (min delta (1/20)) pp s.nextId s.objects).kept ++
                  (movePhase speed (min delta (1/20)) pp s.nextId
                    s.objects).spawns).filter
                  (fun o => o.type ≠ ObjectType.MISSILE)))⟩,
            active := true, color := some "#ffd700", points := some 100 },
    ?_, rfl, rfl, rfl, by simp⟩
  rw [stepFrame_playing]
  rw [spawnPhase_fallback speed level laneCount cl
    (s.distanceTraveled + speed * min delta (1/20)) s.nextLetterDistance
    (movePhase speed (min delta (1/20)) pp s.nextId s.objects).nextId rng sh
    ((movePhase speed (min delta (1/20)) pp s.nextId s.objects).kept ++
      (movePhase speed (min delta (1/20)) pp s.nextId s.objects).spawns)
    (availableIndicesFor_eq_nil cl hall) hgate hdue]

/-- C5 witness: level 1, empty world, all six letters collected, distance at
the threshold. -/
theorem C5_fallback_gem_spawn_witness :
    (∀ i, i < 6 → ([0,1,2,3,4,5] : List ℕ).contains i = true) ∧
    (furthestZOf
        (((movePhase 10 (min (1/20) (1/20)) ⟨0,0,0⟩
            (SimState.mk [] 150 150 0).nextId (SimState.mk [] 150 150 0).objects).kept ++
          (movePhase 10 (min (1/20) (1/20)) ⟨0,0,0⟩
            (SimState.mk [] 150 150 0).nextId (SimState.mk [] 150 150 0).objects).spawns).filter
          (fun o => o.type ≠ ObjectType.MISSILE)) > -SPAWN_DISTANCE) ∧
    ((SimState.mk [] 150 150 0).distanceTraveled + 10 * min (1/20) (1/20) ≥
      (SimState.mk [] 150 150 0).nextLetterDistance) ∧
    (∃ g, (stepFrame GameStatus.PLAYING 10 1 3 [0,1,2,3,4,5] ⟨0,0,0⟩ (1/20) ⟨[]⟩
          (fun l => l) (SimState.mk [] 150 150 0)).state.objects =
        ((movePhase 10 (min (1/20) (1/20)) ⟨0,0,0⟩
          (SimState.mk [] 150 150 0).nextId (SimState.mk [] 150 150 0).objects).kept ++
          (movePhase 10 (min (1/20) (1/20)) ⟨0,0,0⟩
            (SimState.mk [] 150 150 0).nextId (SimState.mk [] 150 150 0).objects).spawns) ++
          [g] ∧
      g.type = ObjectType.GEM ∧ g.points = some 100 ∧ g.active = true ∧
      g.type ≠ ObjectType.LETTER) :=
  ⟨by decide, by norm_num [movePhase, furthestZOf, SPAWN_DISTANCE],
    by norm_num [min_def],
    C5_fallback_gem_spawn 10 (1/20) 1 3 [0,1,2,3,4,5] ⟨0,0,0⟩ ⟨[]⟩ (fun l => l)
      (SimState.mk [] 150 150 0) (by decide)
      (by norm_num [movePhase, furthestZOf, SPAWN_DISTANCE])
      (by norm_num [min_def])⟩

/-- C10: once all six letters are collected, a Playing step leaves
`nextLetterDistance` unchanged (the fallback branch never advances it), the
letter-due condition persists after the step, and the spawner's emission for
the step is either nothing (horizon gate closed) or exactly one 100-point
Gem — never an obstacle, hazard or letter. -/
theorem C10_fallback_lock (speed delta : ℚ) (level laneCount : ℕ)
    (cl : List ℕ) (pp : Vec3) (rng : Rng) (sh : List ℤ → List ℤ) (s : SimState)
    (hall : ∀ i, i < 6 → cl.contains i = true)
    (hspeed : 0 ≤ speed) (hdelta : 0 ≤ delta)
    (hdue : s.nextLetterDistance ≤ s.distanceTraveled) :
    (stepFrame GameStatus.PLAYING speed level laneCount cl pp delta rng sh
        s).state.nextLetterDistance = s.nextLetterDistance ∧
    (stepFrame GameStatus.PLAYING speed level laneCount cl pp delta rng sh
        s).state.nextLetterDistance ≤
      (stepFrame GameStatus.PLAYING speed level laneCount cl pp delta rng sh
        s).state.distanceTraveled ∧
    ((spawnPhase speed level laneCount cl
        (s.distanceTraveled + speed * min delta (1/20)) s.nextLetterDistance
        (movePhase speed (min delta (1/20)) pp s.nextId s.objects).nextId rng sh
        ((movePhase speed (min delta (1/20)) pp s.nextId s.objects).kept ++
          (movePhase speed (min delta (1/20)) pp s.nextId s.objects).spawns)).spawned =
        [] ∨
      ((spawnPhase speed level laneCount cl
          (s.distanceTraveled + speed * min delta (1/20)) s.nextLetterDistance
          (movePhase speed (min delta (1/20)) pp s.nextId s.objects).nextId rng sh
          ((movePhase speed (min delta (1/20)) pp s.nextId s.objects).kept ++
            (movePhase speed (min delta (1/20)) pp s.nextId
              s.objects).spawns)).spawned.length = 1 ∧
        ∀ o ∈ (spawnPhase speed level laneCount cl
            (s.distanceTraveled + speed * min delta (1/20)) s.nextLetterDistance
            (movePhase speed (min delta (1/20)) pp s.nextId s.objects).nextId rng sh
            ((movePhase speed (min delta (1/20)) pp s.nextId s.objects).kept ++
              (movePhase speed (min delta (1/20)) pp s.nextId
                s.objects).spawns)).spawned,
          o.type = ObjectType.GEM ∧ o.points = some 100)) ∧
    (stepFrame GameStatus.PLAYING speed level laneCount cl pp delta rng sh
        s).state.objects =
      ((movePhase speed (min delta (1/20)) pp s.nextId s.objects).kept ++
        (movePhase speed (min delta (1/20)) pp s.nextId s.objects).spawns) ++
      (spawnPhase speed level laneCount cl
        (s.distanceTraveled + speed * min delta (1/20)) s.nextLetterDistance
        (movePhase speed (min delta (1/20)) pp s.nextId s.objects).nextId rng sh
        ((movePhase speed (min delta (1/20)) pp s.nextId s.objects).kept ++
          (movePhase speed (min delta (1/20)) pp s.nextId s.objects).spawns)).spawned := by
  have hdist : 0 ≤ speed * min delta (1/20) :=
    mul_nonneg hspeed (le_min hdelta (by norm_num))
  have hdue2 : s.distanceTraveled + speed * min delta (1/20) ≥ s.nextLetterDistance := by
    linarith
  by_cases hg : furthestZOf
      ((((movePhase speed (min delta (1/20)) pp s.nextId s.objects).kept ++
        (movePhase speed (min delta (1/20)) pp s.nextId s.objects).spawns)).filter
        (fun o => o.type ≠ ObjectType.MISSILE)) > -SPAWN_DISTANCE
  · have hsp := spawnPhase_fallback speed level laneCount cl
      (s.distanceTraveled + speed * min delta (1/20)) s.nextLetterDistance
      (movePhase speed (min delta (1/20)) pp s.nextId s.objects).nextId rng sh
      ((movePhase speed (min delta (1/20)) pp s.nextId s.objects).kept ++
        (movePhase speed (min delta (1/20)) pp s.nextId s.objects).spawns)
      (availableIndicesFor_eq_nil cl hall) hg hdue2
    refine ⟨?_, ?_, Or.inr ⟨by rw [hsp]; rfl, by rw [hsp]; simp⟩, ?_⟩
    · rw [stepFrame_playing]
      simp only [hsp]
    · rw [stepFrame_playing]
      simp only [hsp]
      linarith
    · rw [stepFrame_playing]
  · have hsp := spawnPhase_gate_closed speed level laneCount cl
      (s.distanceTraveled + speed * min delta (1/20)) s.nextLetterDistance
      (movePhase speed (min delta (1/20)) pp s.nextId s.objects).nextId rng sh
      ((movePhase speed (min delta (1/20)) pp s.nextId s.objects).kept ++
        (movePhase speed (min delta (1/20)) pp s.nextId s.objects).spawns) hg
    refine ⟨?_, ?_, Or.inl (by rw [hsp]), ?_⟩
    · rw [stepFrame_playing]
      simp only [hsp]
    · rw [stepFrame_playing]
      simp only [hsp]
      linarith
    · rw [stepFrame_playing]

/-- C10 witness: level 1, empty world, all six letters collected, distance
at the threshold. -/
theorem C10_fallback_lock_witness :
    (∀ i, i < 6 → ([0,1,2,3,4,5] : List ℕ).contains i = true) ∧
    ((0:ℚ) ≤ 10) ∧ ((0:ℚ) ≤ 1/20) ∧
    ((SimState.mk [] 150 150 0).nextLetterDistance ≤
      (SimState.mk [] 150 150 0).distanceTraveled) ∧
    ((stepFrame GameStatus.PLAYING 10 1 3 [0,1,2,3,4,5] ⟨0,0,0⟩ (1/20) ⟨[]⟩
        (fun l => l) (SimState.mk [] 150 150 0)).state.nextLetterDistance =
      (SimState.mk [] 150 150 0).nextLetterDistance ∧
      (stepFrame GameStatus.PLAYING 10 1 3 [0,1,2,3,4,5] ⟨0,0,0⟩ (1/20) ⟨[]⟩
        (fun l => l) (SimState.mk [] 150 150 0)).state.nextLetterDistance ≤
        (stepFrame GameStatus.PLAYING 10 1 3 [0,1,2,3,4,5] ⟨0,0,0⟩ (1/20) ⟨[]⟩
          (fun l => l) (SimState.mk [] 150 150 0)).state.distanceTraveled ∧
      ((spawnPhase 10 1 3 [0,1,2,3,4,5]
          ((SimState.mk [] 150 150 0).distanceTraveled + 10 * min (1/20) (1/20))
          (SimState.mk [] 150 150 0).nextLetterDistance
          (movePhase 10 (min (1/20) (1/20)) ⟨0,0,0⟩ (SimState.mk [] 150 150 0).nextId
            (SimState.mk [] 150 150 0).objects).nextId ⟨[]⟩ (fun l => l)
          ((movePhase 10 (min (1/20) (1/20)) ⟨0,0,0⟩ (SimState.mk [] 150 150 0).nextId
            (SimState.mk [] 150 150 0).objects).kept ++
            (movePhase 10 (min (1/20) (1/20)) ⟨0,0,0⟩ (SimState.mk [] 150 150 0).nextId
              (SimState.mk [] 150 150 0).objects).spawns)).spawned = [] ∨
        ((spawnPhase 10 1 3 [0,1,2,3,4,5]
            ((SimState.mk [] 150 150 0).distanceTraveled + 10 * min (1/20) (1/20))
            (SimState.mk [] 150 150 0).nextLetterDistance
            (movePhase 10 (min (1/20) (1/20)) ⟨0,0,0⟩ (SimState.mk [] 150 150 0).nextId
              (SimState.mk [] 150 150 0).objects).nextId ⟨[]⟩ (fun l => l)
            ((movePhase 10 (min (1/20) (1/20)) ⟨0,0,0⟩ (SimState.mk [] 150 150 0).nextId
              (SimState.mk [] 150 150 0).objects).kept ++
              (movePhase 10 (min (1/20) (1/20)) ⟨0,0,0⟩ (SimState.mk [] 150 150 0).nextId
                (SimState.mk [] 150 150 0).objects).spawns)).spawned.length = 1 ∧
          ∀ o ∈ (spawnPhase 10 1 3 [0,1,2,3,4,5]
              ((SimState.mk [] 150 150 0).distanceTraveled + 10 * min (1/20) (1/20))
              (SimState.mk [] 150 150 0).nextLetterDistance
              (movePhase 10 (min (1/20) (1/20)) ⟨0,0,0⟩ (SimState.mk [] 150 150 0).nextId
                (SimState.mk [] 150 150 0).objects).nextId ⟨[]⟩ (fun l => l)
              ((movePhase 10 (min (1/20) (1/20)) ⟨0,0,0⟩ (SimState.mk [] 150 150 0).nextId
                (SimState.mk [] 150 150 0).objects).kept ++
                (movePhase 10 (min (1/20) (1/20)) ⟨0,0,0⟩ (SimState.mk [] 150 150 0).nextId
                  (SimState.mk [] 150 150 0).objects).spawns)).spawned,
            o.type = ObjectType.GEM ∧ o.points = some 100)) ∧
      (stepFrame GameStatus.PLAYING 10 1 3 [0,1,2,3,4,5] ⟨0,0,0⟩ (1/20) ⟨[]⟩
          (fun l => l) (SimState.mk [] 150 150 0)).state.objects =
        ((movePhase 10 (min (1/20) (1/20)) ⟨0,0,0⟩ (SimState.mk [] 150 150 0).nextId
          (SimState.mk [] 150 150 0).objects).kept ++
          (movePhase 10 (min (1/20) (1/20)) ⟨0,0,0⟩ (SimState.mk [] 150 150 0).nextId
            (SimState.mk [] 150 150 0).objects).spawns) ++
        (spawnPhase 10 1 3 [0,1,2,3,4,5]
          ((SimState.mk [] 150 150 0).distanceTraveled + 10 * min (1/20) (1/20))
          (SimState.mk [] 150 150 0).nextLetterDistance
          (movePhase 10 (min (1/20) (1/20)) ⟨0,0,0⟩ (SimState.mk [] 150 150 0).nextId
            (SimState.mk [] 150 150 0).objects).nextId ⟨[]⟩ (fun l => l)
          ((movePhase 10 (min (1/20) (1/20)) ⟨0,0,0⟩ (SimState.mk [] 150 150 0).nextId
            (SimState.mk [] 150 150 0).objects).kept ++
            (movePhase 10 (min (1/20) (1/20)) ⟨0,0,0⟩ (SimState.mk [] 150 150 0).nextId
              (SimState.mk [] 150 150 0).objects).spawns)).spawned) :=
  ⟨by decide, by norm_num, by norm_num, by norm_num,
    C10_fallback_lock 10 (1/20) 1 3 [0,1,2,3,4,5] ⟨0,0,0⟩ ⟨[]⟩ (fun l => l)
      (SimState.mk [] 150 150 0) (by decide) (by norm_num) (by norm_num)
      (by norm_num)⟩

set_option maxHeartbeats 1000000 in
/-- C9: at the idle-to-charging transition the original idle boar is neither
deactivated nor removed: after the firing frame both the original ALIEN
(still active, now fired) and the fresh MISSILE are simultaneously live, and
both types are damage sources; one frame later the same single spawned idle
hazard damages the player twice — a takeDamage(10) from the ALIEN itself and
a takeDamage(100) from its MISSILE. -/
theorem C9_idle_boar_double_damage :
    ((stepFrame GameStatus.PLAYING 1000 2 3 [] ⟨0,0,0⟩ (1/20) ⟨[]⟩ (fun l => l)
        ⟨[GameObject.mk 0 ObjectType.ALIEN ⟨0, 3/5, -91⟩ true none (some "#4e342e")
          none none (some false)], 0, 150, 1⟩).state.objects.map
      (fun o => (o.type, o.active, o.hasFired)) =
      [(ObjectType.ALIEN, true, some true), (ObjectType.MISSILE, true, none)]) ∧
    isDamageSource ObjectType.ALIEN ∧ isDamageSource ObjectType.MISSILE ∧
    (stepFrame GameStatus.PLAYING 1000 2 3 [] ⟨0,0,0⟩ (1/20) ⟨[]⟩ (fun l => l)
        ⟨[GameObject.mk 0 ObjectType.ALIEN ⟨0, 3/5, -91⟩ true none (some "#4e342e")
          none none (some false)], 0, 150, 1⟩).events = [] ∧
    (stepFrame GameStatus.PLAYING 1000 2 3 [] ⟨0,0,0⟩ (1/20) ⟨[]⟩ (fun l => l)
        (stepFrame GameStatus.PLAYING 1000 2 3 [] ⟨0,0,0⟩ (1/20) ⟨[]⟩ (fun l => l)
          ⟨[GameObject.mk 0 ObjectType.ALIEN ⟨0, 3/5, -91⟩ true none (some "#4e342e")
            none none (some false)], 0, 150, 1⟩).state).events =
      [GameEvent.playerHit, GameEvent.takeDamage 10, GameEvent.playerHit,
        GameEvent.takeDamage 100,
        GameEvent.particleBurst ⟨0, 3/5, 62/5⟩ "#ff0000" 50] := by
  refine ⟨?_, by decide, by decide, ?_, ?_⟩ <;>
  · norm_num +decide [stepFrame_playing, movePhase, processObject, moveObject,
      aggroCheck, collide, spawnPhase, letterOrFallback, noLetterSpawn,
      availableIndicesFor, spawnZFor, furthestZOf, moveAmountFor, vertBand,
      penaltyFor, isDamageSource, collectibleEvents, Rng.next, LANE_WIDTH,
      SPAWN_DISTANCE, REMOVE_DISTANCE, SCORE_PENALTY_OBSTACLE, SCORE_PENALTY_BOAR,
      SCORE_PENALTY_MONSTER, MISSILE_SPEED, min_def, abs_sub_lt_iff]

end IndiHunter
